import Mathlib

/-!
Shallow embedding of the sunshine_hdr_helper display-configuration core
(src/displays_info.rs, src/set_sdr_level.rs, src/change_display_mode.rs,
src/change_icc_profile.rs).

The operating system is modelled as an explicit state (`OsState`) answering the
Win32 calls the program makes; every embedded operation returns its result
together with the complete trace of OS calls it issued (`List OsCall`), so
statements such as "fails without issuing any OS mutation call" are statements
about the trace.  Machine integers (u32 fields of the Win32 records) only ever
flow through the program unchanged or are compared, except for the SDR
`1000 + level * 50` computation, which is taken modulo 2^32.
-/

/-- Windows `LUID` (locally unique identifier), as carried in
`DISPLAYCONFIG_PATH_INFO.sourceInfo.adapterId` / `targetInfo.adapterId`. -/
structure LUID where
  LowPart : Nat
  HighPart : Nat
deriving DecidableEq

/-- The fields of `DISPLAYCONFIG_PATH_INFO` the program reads:
`sourceInfo.id`, `sourceInfo.adapterId`, `targetInfo.id`, `targetInfo.adapterId`. -/
structure PathInfo where
  sourceAdapterId : LUID
  sourceId : Nat
  targetAdapterId : LUID
  targetId : Nat
deriving DecidableEq

/-- The fields of `DEVMODEW` the program reads after a settings query. -/
structure DevMode where
  dmPelsWidth : Nat
  dmPelsHeight : Nat
  dmDisplayFrequency : Nat
deriving DecidableEq

/-- One legacy display device as reported by `EnumDisplayDevicesW` at a given
ordinal index (the index is the position in `OsState.legacy`).
`currentSettings` is the answer to the `EnumDisplaySettingsW(name,
ENUM_CURRENT_SETTINGS, ..)` query for this device; `none` models the query
failing. -/
structure LegacyDevice where
  deviceName : String
  deviceString : String
  stateFlags : Nat
  currentSettings : Option DevMode
deriving DecidableEq

/-- Outcome of one `QueryDisplayConfig` call.  On success the OS fills the path
buffer and writes back the path count; the model carries directly the list of
paths in the filled prefix (`paths[..num_paths]`). -/
inductive QueryOutcome where
  | success (paths : List PathInfo)
  | insufficientBuffer
  | otherError
deriving DecidableEq

/-- Record `DisplayMode` from src/displays_info.rs. -/
structure DisplayMode where
  width : Nat
  height : Nat
  refresh_rate : Nat
deriving DecidableEq

/-- The four-way decoded result of `ChangeDisplaySettingsExW`. -/
inductive DispChange where
  | successful
  | badMode
  | failed
  | restart
  | unknown
deriving DecidableEq

/-- Record `IccProfile` from src/change_icc_profile.rs.  The OS callback hands the
program a profile path string; the code derives `name` as the path's final
component.  The model carries the resulting records (the same derivation is
used by both the listing and the setting path). -/
structure IccProfile where
  name : String
  path : String
deriving DecidableEq

/-- The record the SDR mutator passes to `DisplayConfigSetDeviceInfo`
(`DisplayconfigSetSdrWhiteLevel` in src/set_sdr_level.rs: an undocumented
header `type` tag, the record byte size, the adapter identity and output id
from the header, then the level and the commit flag). -/
structure SdrRequest where
  reqType : Int
  size : Nat
  adapterId : LUID
  id : Nat
  sdr_white_level : Nat
  final_value : Nat
deriving DecidableEq

/-- The fields of the `DEVMODEW` passed to `ChangeDisplaySettingsExW`, plus the
target legacy device name (src/change_display_mode.rs scopes exactly width,
height and frequency via `dmFields`). -/
structure ModeChangeRequest where
  deviceName : String
  dmPelsWidth : Nat
  dmPelsHeight : Nat
  dmDisplayFrequency : Nat
deriving DecidableEq

/-- One OS call issued by the program.  Traces of these model the "fake OS
collaborator recording invocations". -/
inductive OsCall where
  | getDisplayConfigBufferSizes
  | queryDisplayConfig
  | enumDisplayDevices (deviceIndex : Nat)
  | enumDisplaySettings (deviceName : String) (modeNum : Option Nat)
  | displayConfigSetDeviceInfo (req : SdrRequest)
  | changeDisplaySettings (req : ModeChangeRequest)
  | createDC (deviceName : String)
  | enumIcmProfiles (deviceName : String)
  | deleteDC (deviceName : String)
  | colorProfileSetAssoc (profilePath : String) (adapterId : LUID) (sourceId : Nat)
deriving DecidableEq

/-- Calls that mutate OS state (the SDR set, the mode change, the profile
association); everything else is a query. -/
def OsCall.isMutation : OsCall → Bool
  | OsCall.displayConfigSetDeviceInfo _ => true
  | OsCall.changeDisplaySettings _ => true
  | OsCall.colorProfileSetAssoc _ _ _ => true
  | _ => false

/-- Recognises the `QueryDisplayConfig` fetch call (used to count retries). -/
def OsCall.isQuery : OsCall → Bool
  | OsCall.queryDisplayConfig => true
  | _ => false

/-- The operating-system state an execution runs against.  `query1` is the
outcome of the first `QueryDisplayConfig` call of an operation, `query2` of the
second (only reachable through the SDR enumerator's retry); `legacy` is the
`EnumDisplayDevicesW` table indexed by ordinal; `reportedModes name` is the
sequence of modes `EnumDisplaySettingsW(name, i)` reports for `i = 0, 1, ...`
(failing at the index one past the end). -/
structure OsState where
  bufferSizes : Option (Nat × Nat)
  query1 : QueryOutcome
  query2 : QueryOutcome
  legacy : List LegacyDevice
  reportedModes : String → List DisplayMode
  changeResult : DispChange
  dcSucceeds : String → Bool
  iccEnum : String → List IccProfile
  sdrSetSucceeds : Bool
  assocSucceeds : Bool

/-- Constant `DISPLAY_DEVICE_PRIMARY_DEVICE` = 0x00000004. -/
def DISPLAY_DEVICE_PRIMARY_DEVICE : Nat := 4

namespace DisplaysInfo

/-- Record `DisplayDevice` from src/displays_info.rs. -/
structure DisplayDevice where
  device_index : Nat
  device_name : String
  device_string : String
  state_flags : Nat
  is_primary : Bool
  current_resolution : Nat × Nat
  current_refresh_rate : Nat
  adapter_id : LUID
  source_id : Nat
deriving DecidableEq

/-- Descending lexicographic order on modes, exactly the comparator passed to
`sort_by` in `get_supported_modes`:
`b.width.cmp(&a.width).then(b.height.cmp(&a.height)).then(b.refresh_rate.cmp(&a.refresh_rate))`
is not-greater exactly when this returns `true`. -/
def modeLe (a b : DisplayMode) : Bool :=
  decide (b.width < a.width) ||
    (decide (a.width = b.width) &&
      (decide (b.height < a.height) ||
        (decide (a.height = b.height) && decide (b.refresh_rate ≤ a.refresh_rate))))

/-- Insert a mode into a list sorted by `modeLe`. -/
def insertMode (x : DisplayMode) : List DisplayMode → List DisplayMode
  | [] => [x]
  | y :: ys => if modeLe x y then x :: y :: ys else y :: insertMode x ys

/-- Sorting by the `sort_by` comparator.  Rust's `sort_by` produces some
permutation sorted by the comparator; on a duplicate-free input the comparator
below is a total order, so that permutation is unique and insertion sort
computes it. -/
def sortModes : List DisplayMode → List DisplayMode
  | [] => []
  | x :: xs => insertMode x (sortModes xs)

/-- The `EnumDisplaySettingsW(name, mode_num, ..)` calls issued by the
`get_supported_modes` loop: one per reported mode plus the final failing one. -/
def enumModesCalls (name : String) : List DisplayMode → Nat → List OsCall
  | [], n => [OsCall.enumDisplaySettings name (some n)]
  | _ :: rest, n => OsCall.enumDisplaySettings name (some n) :: enumModesCalls name rest (n + 1)

/-- Method `DisplayDevice::get_supported_modes`: walk mode indices 0, 1, ... until the
OS reports no more, inserting each reported `(width, height, refresh_rate)`
into a `HashSet`, then sort by the descending comparator.  The hash set is
modelled as `dedup` followed by the sort: the collected set has exactly the
distinct reported triples, and since the comparator totally orders distinct
triples the sorted output does not depend on the set's iteration order. -/
def DisplayDevice.get_supported_modes (os : OsState) (self : DisplayDevice) :
    List DisplayMode × List OsCall :=
  let reported := os.reportedModes self.device_name
  (sortModes reported.dedup, enumModesCalls self.device_name reported 0)

/-- The per-device body of the `EnumDisplayDevicesW` loop in
`enumerate_displays` (src/displays_info.rs lines 158-248), carrying the
reconciliation table `path_info : List (source_id, adapter_id)` built from the
modern path list.  Entries with `state_flags == 0` are skipped; entries whose
current-settings query fails are logged and skipped; retained entries look
their ordinal index up against the path source ids (the positional
correspondence assumption flagged in the source), defaulting to the zero LUID
and source id 0. -/
def buildDevices (path_info : List (Nat × LUID)) :
    Nat → List LegacyDevice → List DisplayDevice × List OsCall
  | device_index, [] => ([], [OsCall.enumDisplayDevices device_index])
  | device_index, dev :: rest =>
    let call := OsCall.enumDisplayDevices device_index
    if dev.stateFlags == 0 then
      let r := buildDevices path_info (device_index + 1) rest
      (r.1, call :: r.2)
    else
      let settingsCall := OsCall.enumDisplaySettings dev.deviceName none
      match dev.currentSettings with
      | some dm =>
        let is_primary := dev.stateFlags &&& DISPLAY_DEVICE_PRIMARY_DEVICE != 0
        let ids :=
          ((path_info.find? fun pr => pr.1 == device_index).map
            fun pr => (pr.2, pr.1)).getD (⟨0, 0⟩, 0)
        let d : DisplayDevice := {
          device_index := device_index,
          device_name := dev.deviceName,
          device_string := dev.deviceString,
          state_flags := dev.stateFlags,
          is_primary := is_primary,
          current_resolution := (dm.dmPelsWidth, dm.dmPelsHeight),
          current_refresh_rate := dm.dmDisplayFrequency,
          adapter_id := ids.1,
          source_id := ids.2 }
        let r := buildDevices path_info (device_index + 1) rest
        (d :: r.1, call :: settingsCall :: r.2)
      | none =>
        let r := buildDevices path_info (device_index + 1) rest
        (r.1, call :: settingsCall :: r.2)

/-- Function `enumerate_displays` from src/displays_info.rs: query buffer sizes, issue
`QueryDisplayConfig` once (any non-success result, `ERROR_INSUFFICIENT_BUFFER`
included, returns the empty list — there is no retry here), build the
`(source_id, adapter_id)` table from the returned paths, then run the legacy
device loop. -/
def enumerate_displays (os : OsState) : List DisplayDevice × List OsCall :=
  match os.bufferSizes with
  | none => ([], [OsCall.getDisplayConfigBufferSizes])
  | some _ =>
    match os.query1 with
    | QueryOutcome.success paths =>
      let path_info : List (Nat × LUID) := paths.map fun p => (p.sourceId, p.sourceAdapterId)
      let r := buildDevices path_info 0 os.legacy
      (r.1, OsCall.getDisplayConfigBufferSizes :: OsCall.queryDisplayConfig :: r.2)
    | _ => ([], [OsCall.getDisplayConfigBufferSizes, OsCall.queryDisplayConfig])

/-- Function `get_primary_display_info`: fresh enumeration, first device with
`is_primary`, plus its supported-mode catalog. -/
def get_primary_display_info (os : OsState) :
    Option (DisplayDevice × List DisplayMode) × List OsCall :=
  let r := enumerate_displays os
  match r.1.find? (fun d => d.is_primary) with
  | some primary =>
    let m := primary.get_supported_modes os
    (some (primary, m.1), r.2 ++ m.2)
  | none => (none, r.2)

end DisplaysInfo

namespace SetSdrLevel

/-- Record `DisplayInfo` from src/set_sdr_level.rs: one modern path plus the
primary flag computed for it. -/
structure DisplayInfo where
  path_info : PathInfo
  is_primary : Bool
deriving DecidableEq

/-- The `EnumDisplayDevicesW` scan inside `DisplayInfo::is_primary_display`:
walk ordinals from `idx`, returning `true` at the first device whose
`StateFlags` carries `DISPLAY_DEVICE_PRIMARY_DEVICE` (stopping the scan
there), `false` when the enumeration runs out. -/
def primaryScan : Nat → List LegacyDevice → Bool × List OsCall
  | idx, [] => (false, [OsCall.enumDisplayDevices idx])
  | idx, dev :: rest =>
    let call := OsCall.enumDisplayDevices idx
    if dev.stateFlags &&& DISPLAY_DEVICE_PRIMARY_DEVICE != 0 then
      (true, [call])
    else
      let r := primaryScan (idx + 1) rest
      (r.1, call :: r.2)

/-- Method `DisplayInfo::is_primary_display` (src/set_sdr_level.rs lines 60-76).
Note that the method takes `&self` but never reads it: the scan asks whether
ANY legacy device carries the primary flag, independent of which path `self`
holds. -/
def DisplayInfo.is_primary_display (_self : DisplayInfo) (os : OsState) :
    Bool × List OsCall :=
  primaryScan 0 os.legacy

/-- The `for path in paths.iter().take(path_count)` loop of the SDR
enumerator: each path becomes a `DisplayInfo` whose `is_primary` is then
overwritten with the result of its `is_primary_display` scan. -/
def buildInfos (os : OsState) : List PathInfo → List DisplayInfo × List OsCall
  | [] => ([], [])
  | p :: rest =>
    let di : DisplayInfo := { path_info := p, is_primary := false }
    let s := di.is_primary_display os
    let r := buildInfos os rest
    ({ di with is_primary := s.1 } :: r.1, s.2 ++ r.2)

/-- The effective `QueryDisplayConfig` outcome the SDR enumerator acts on:
if the first call reports `ERROR_INSUFFICIENT_BUFFER` the buffers are resized
and the call reissued once, and the second outcome governs; otherwise the
first outcome governs. -/
def effectiveQuery (os : OsState) : QueryOutcome :=
  match os.query1 with
  | QueryOutcome.insufficientBuffer => os.query2
  | r => r

/-- The `QueryDisplayConfig` calls the SDR enumerator issues: exactly two when
the first reports insufficient buffer, otherwise exactly one. -/
def sdrQueryCalls (os : OsState) : List OsCall :=
  match os.query1 with
  | QueryOutcome.insufficientBuffer => [OsCall.queryDisplayConfig, OsCall.queryDisplayConfig]
  | _ => [OsCall.queryDisplayConfig]

/-- Function `enumerate_displays` from src/set_sdr_level.rs: query buffer sizes (error
on failure), issue `QueryDisplayConfig` with one retry on
`ERROR_INSUFFICIENT_BUFFER`, error on any remaining non-success, then build a
`DisplayInfo` per returned path. -/
def enumerate_displays (os : OsState) : Except Unit (List DisplayInfo) × List OsCall :=
  match os.bufferSizes with
  | none => (Except.error (), [OsCall.getDisplayConfigBufferSizes])
  | some _ =>
    match effectiveQuery os with
    | QueryOutcome.success paths =>
      let r := buildInfos os paths
      (Except.ok r.1, OsCall.getDisplayConfigBufferSizes :: sdrQueryCalls os ++ r.2)
    | _ => (Except.error (), OsCall.getDisplayConfigBufferSizes :: sdrQueryCalls os)

/-- Constant `DISPLAYCONFIG_DEVICE_INFO_SET_SDR_WHITE_LEVEL`: the reverse-engineered
request-type tag, `DISPLAYCONFIG_DEVICE_INFO_TYPE(-18)`. -/
def DISPLAYCONFIG_DEVICE_INFO_SET_SDR_WHITE_LEVEL : Int := -18

/-- Value of `size_of::<DisplayconfigSetSdrWhiteLevel>()`: a 20-byte
`DISPLAYCONFIG_DEVICE_INFO_HEADER` (i32 type + u32 size + 8-byte LUID + u32
id) followed by a u32 level and a u8 flag, padded to 4-byte alignment under
`repr(C)`. -/
def sdrRequestByteSize : Nat := 28

/-- The `DisplayconfigSetSdrWhiteLevel` record `set_sdr_white_level` builds:
the undocumented tag, the record size, the path's TARGET adapter identity and
output id, the mapped level `1000 + level * 50` (u32 arithmetic), and the
committed-value flag set to 1. -/
def mkSdrRequest (path_info : PathInfo) (level : Nat) : SdrRequest :=
  { reqType := DISPLAYCONFIG_DEVICE_INFO_SET_SDR_WHITE_LEVEL,
    size := sdrRequestByteSize,
    adapterId := path_info.targetAdapterId,
    id := path_info.targetId,
    sdr_white_level := (1000 + level * 50) % 2 ^ 32,
    final_value := 1 }

/-- Function `set_sdr_white_level` (src/set_sdr_level.rs lines 139-160): build the
record and issue `DisplayConfigSetDeviceInfo`; non-`ERROR_SUCCESS` is an
error. -/
def set_sdr_white_level (os : OsState) (path_info : PathInfo) (level : Nat) :
    Except Unit Unit × List OsCall :=
  let params := mkSdrRequest path_info level
  ((if os.sdrSetSucceeds then Except.ok () else Except.error ()),
    [OsCall.displayConfigSetDeviceInfo params])

/-- Function `set_primary_display_sdr_white` (src/set_sdr_level.rs lines 165-178):
reject `level > 100` before any OS interaction, enumerate (propagating its
error), find the first `DisplayInfo` marked primary and set its level; error
if none is marked primary. -/
def set_primary_display_sdr_white (os : OsState) (level : Nat) :
    Except Unit Unit × List OsCall :=
  if level > 100 then
    (Except.error (), [])
  else
    let e := enumerate_displays os
    match e.1 with
    | Except.error err => (Except.error err, e.2)
    | Except.ok displays =>
      match displays.find? (fun d => d.is_primary) with
      | some primary_display =>
        let s := set_sdr_white_level os primary_display.path_info level
        (s.1, e.2 ++ s.2)
      | none => (Except.error (), e.2)

end SetSdrLevel

namespace ChangeDisplayMode

/-- Function `change_primary_display_mode` (src/change_display_mode.rs).
`bypass_validation` is the source's `unsafe_mode` flag (spec: `validate =
!unsafe_mode`).  Resolve the primary display and its catalog, fail without
touching the OS; if validating, fail without touching the OS when the
requested triple matches no catalog entry; otherwise issue
`ChangeDisplaySettingsExW` naming the primary's legacy device name and
succeed exactly on `DISP_CHANGE_SUCCESSFUL`. -/
def change_primary_display_mode (os : OsState)
    (width height refresh_rate : Nat) (bypass_validation : Bool) :
    Bool × List OsCall :=
  let g := DisplaysInfo.get_primary_display_info os
  match g.1 with
  | none => (false, g.2)
  | some (primary, supported_modes) =>
    if !bypass_validation && !(supported_modes.any fun mode =>
        mode.width == width && mode.height == height &&
          mode.refresh_rate == refresh_rate) then
      (false, g.2)
    else
      let req : ModeChangeRequest :=
        { deviceName := primary.device_name,
          dmPelsWidth := width,
          dmPelsHeight := height,
          dmDisplayFrequency := refresh_rate }
      ((os.changeResult == DispChange.successful),
        g.2 ++ [OsCall.changeDisplaySettings req])

end ChangeDisplayMode

namespace ChangeIccProfile

/-- Function `get_display_icc_profiles` (src/change_icc_profile.rs lines 22-72): open a
device context for the display's legacy name (returning the empty list if that
fails), run the `EnumICMProfilesW` callback enumeration collecting the
profiles, and close the context unconditionally.  The enumeration status
(-1 none / 0 interrupted / other) only affects logging: the collected list is
returned regardless. -/
def get_display_icc_profiles (os : OsState) (display : DisplaysInfo.DisplayDevice) :
    List IccProfile × List OsCall :=
  if os.dcSucceeds display.device_name then
    (os.iccEnum display.device_name,
      [OsCall.createDC display.device_name,
       OsCall.enumIcmProfiles display.device_name,
       OsCall.deleteDC display.device_name])
  else
    ([], [OsCall.createDC display.device_name])

/-- Function `set_display_icc_profile` (src/change_icc_profile.rs lines 78-116):
re-list the display's profiles, require an exact `name` match for the
requested profile (error without any further OS call if absent), then issue
`ColorProfileSetDisplayDefaultAssociation` with the matched profile's path and
the display's `(adapter_id, source_id)`. -/
def set_display_icc_profile (os : OsState) (display : DisplaysInfo.DisplayDevice)
    (profile_name : String) : Except Unit Unit × List OsCall :=
  let g := get_display_icc_profiles os display
  match g.1.find? fun p => p.name == profile_name with
  | none => (Except.error (), g.2)
  | some profile =>
    ((if os.assocSucceeds then Except.ok () else Except.error ()),
      g.2 ++ [OsCall.colorProfileSetAssoc profile.path display.adapter_id display.source_id])

/-- Function `list_icc_profiles` (src/change_icc_profile.rs lines 126-135): resolve the
primary display; with none, return the empty list (the return type has no
error channel); otherwise list the primary's profiles as `(name, path)`
pairs. -/
def list_icc_profiles (os : OsState) : List (String × String) × List OsCall :=
  let g := DisplaysInfo.get_primary_display_info os
  match g.1 with
  | some (primary_display, _) =>
    let p := get_display_icc_profiles os primary_display
    (p.1.map fun profile => (profile.name, profile.path), g.2 ++ p.2)
  | none => ([], g.2)

end ChangeIccProfile

namespace DisplaysInfo

/-- The comparator is total. -/
theorem modeLe_total (a b : DisplayMode) : (modeLe a b || modeLe b a) = true := by
  simp only [modeLe, Bool.or_eq_true, Bool.and_eq_true, decide_eq_true_eq]
  omega

/-- The comparator is transitive. -/
theorem modeLe_trans (a b c : DisplayMode) (h1 : modeLe a b = true)
    (h2 : modeLe b c = true) : modeLe a c = true := by
  simp only [modeLe, Bool.or_eq_true, Bool.and_eq_true, decide_eq_true_eq] at h1 h2 ⊢
  omega

/-- Membership through insertion. -/
theorem mem_insertMode (x a : DisplayMode) (l : List DisplayMode) :
    a ∈ insertMode x l ↔ a = x ∨ a ∈ l := by
  induction l with
  | nil => simp [insertMode]
  | cons y ys ih =>
    by_cases hxy : modeLe x y = true
    · rw [insertMode, if_pos hxy]
      simp
    · rw [insertMode, if_neg hxy]
      simp only [List.mem_cons, ih]
      tauto

/-- Insertion permutes. -/
theorem perm_insertMode (x : DisplayMode) (l : List DisplayMode) :
    List.Perm (insertMode x l) (x :: l) := by
  induction l with
  | nil => exact List.Perm.refl _
  | cons y ys ih =>
    by_cases hxy : modeLe x y = true
    · rw [insertMode, if_pos hxy]
    · rw [insertMode, if_neg hxy]
      exact (ih.cons y).trans (List.Perm.swap x y ys)

/-- Sorting permutes. -/
theorem perm_sortModes (l : List DisplayMode) : List.Perm (sortModes l) l := by
  induction l with
  | nil => exact List.Perm.refl _
  | cons x xs ih => exact (perm_insertMode x (sortModes xs)).trans (ih.cons x)

/-- Insertion preserves sortedness under the comparator. -/
theorem sorted_insertMode (x : DisplayMode) (l : List DisplayMode)
    (h : l.Pairwise fun a b => modeLe a b = true) :
    (insertMode x l).Pairwise fun a b => modeLe a b = true := by
  induction l with
  | nil => simp [insertMode]
  | cons y ys ih =>
    rw [List.pairwise_cons] at h
    obtain ⟨hy, hys⟩ := h
    by_cases hxy : modeLe x y = true
    · rw [insertMode, if_pos hxy]
      refine List.Pairwise.cons ?_ (List.Pairwise.cons hy hys)
      intro b hb
      rcases List.mem_cons.mp hb with rfl | hb
      · exact hxy
      · exact modeLe_trans x y b hxy (hy b hb)
    · rw [insertMode, if_neg hxy]
      refine List.Pairwise.cons ?_ (ih hys)
      intro b hb
      rcases (mem_insertMode x b ys).mp hb with heq | hb
      · subst heq
        have hf : modeLe b y = false := by
          revert hxy
          cases modeLe b y <;> simp
        have ht := modeLe_total b y
        rw [hf] at ht
        simpa using ht
      · exact hy b hb

/-- The sorted output is pairwise related by the comparator. -/
theorem sorted_sortModes (l : List DisplayMode) :
    (sortModes l).Pairwise fun a b => modeLe a b = true := by
  induction l with
  | nil => exact List.Pairwise.nil
  | cons x xs ih => exact sorted_insertMode x (sortModes xs) ih

/-- Strict descending order on mode triples: width, then height, then refresh
rate, all strictly. -/
def modeGtStrict (a b : DisplayMode) : Prop :=
  b.width < a.width ∨
    (a.width = b.width ∧
      (b.height < a.height ∨ (a.height = b.height ∧ b.refresh_rate < a.refresh_rate)))

/-- On distinct modes the comparator is strict. -/
theorem modeLe_ne_gt (a b : DisplayMode) (h1 : modeLe a b = true) (h2 : a ≠ b) :
    modeGtStrict a b := by
  rcases a with ⟨aw, ah, ar⟩
  rcases b with ⟨bw, bh, br⟩
  simp only [modeLe, Bool.or_eq_true, Bool.and_eq_true, decide_eq_true_eq] at h1
  simp only [ne_eq, DisplayMode.mk.injEq] at h2
  simp only [modeGtStrict]
  omega

end DisplaysInfo

/-- C6: for every device and every sequence of modes the OS reports,
`get_supported_modes` returns a list with no duplicate
`(width, height, refresh_rate)` triples, containing exactly the distinct
triples reported, sorted strictly descending by width, then height, then
refresh rate. -/
theorem get_supported_modes_nodup_distinct_sorted (os : OsState)
    (self : DisplaysInfo.DisplayDevice) :
    ((self.get_supported_modes os).1).Nodup ∧
    (∀ m, m ∈ (self.get_supported_modes os).1 ↔ m ∈ os.reportedModes self.device_name) ∧
    ((self.get_supported_modes os).1).Pairwise DisplaysInfo.modeGtStrict := by
  have hval : (self.get_supported_modes os).1
      = DisplaysInfo.sortModes (os.reportedModes self.device_name).dedup := rfl
  have hperm := DisplaysInfo.perm_sortModes (os.reportedModes self.device_name).dedup
  have hnodup : ((self.get_supported_modes os).1).Nodup := by
    rw [hval]
    exact hperm.symm.nodup (List.nodup_dedup _)
  refine ⟨hnodup, ?_, ?_⟩
  · intro m
    rw [hval, hperm.mem_iff, List.mem_dedup]
  · have hsorted := DisplaysInfo.sorted_sortModes (os.reportedModes self.device_name).dedup
    rw [hval] at hnodup ⊢
    exact (hsorted.and hnodup).imp fun h => DisplaysInfo.modeLe_ne_gt _ _ h.1 h.2

namespace DisplaysInfo

/-- Every call the legacy device loop issues is a non-mutating, non-fetch
call. -/
theorem buildDevices_calls (pi : List (Nat × LUID)) (l : List LegacyDevice) (idx : Nat) :
    ∀ c ∈ (buildDevices pi idx l).2, c.isMutation = false ∧ c.isQuery = false := by
  induction l generalizing idx with
  | nil =>
    intro c hc
    simp only [buildDevices, List.mem_singleton] at hc
    subst hc
    exact ⟨rfl, rfl⟩
  | cons dev rest ih =>
    intro c hc
    simp only [buildDevices] at hc
    split at hc
    · rcases List.mem_cons.mp hc with rfl | hc
      · exact ⟨rfl, rfl⟩
      · exact ih (idx + 1) c hc
    · split at hc
      · rcases List.mem_cons.mp hc with rfl | hc
        · exact ⟨rfl, rfl⟩
        · rcases List.mem_cons.mp hc with rfl | hc
          · exact ⟨rfl, rfl⟩
          · exact ih (idx + 1) c hc
      · rcases List.mem_cons.mp hc with rfl | hc
        · exact ⟨rfl, rfl⟩
        · rcases List.mem_cons.mp hc with rfl | hc
          · exact ⟨rfl, rfl⟩
          · exact ih (idx + 1) c hc

/-- Every call the mode-catalog loop issues is a non-mutating, non-fetch
call. -/
theorem enumModesCalls_calls (name : String) (l : List DisplayMode) (n : Nat) :
    ∀ c ∈ enumModesCalls name l n, c.isMutation = false ∧ c.isQuery = false := by
  induction l generalizing n with
  | nil =>
    intro c hc
    simp only [enumModesCalls, List.mem_singleton] at hc
    subst hc
    exact ⟨rfl, rfl⟩
  | cons m rest ih =>
    intro c hc
    simp only [enumModesCalls] at hc
    rcases List.mem_cons.mp hc with rfl | hc
    · exact ⟨rfl, rfl⟩
    · exact ih (n + 1) c hc

/-- The Device Enumerator issues no mutating call. -/
theorem enumerate_displays_no_mutation (os : OsState) :
    ∀ c ∈ (enumerate_displays os).2, c.isMutation = false := by
  intro c hc
  simp only [enumerate_displays] at hc
  split at hc
  · simp only [List.mem_singleton] at hc
    subst hc
    rfl
  · split at hc
    · rcases List.mem_cons.mp hc with rfl | hc
      · rfl
      · rcases List.mem_cons.mp hc with rfl | hc
        · rfl
        · exact (buildDevices_calls _ _ _ c hc).1
    · rcases List.mem_cons.mp hc with rfl | hc
      · rfl
      · simp only [List.mem_singleton] at hc
        subst hc
        rfl

/-- The Device Enumerator issues at most one `QueryDisplayConfig` fetch. -/
theorem enumerate_displays_queryCount (os : OsState) :
    ((enumerate_displays os).2.countP fun c => c.isQuery) ≤ 1 := by
  have hz : ∀ pi, ((buildDevices pi 0 os.legacy).2.countP fun c => c.isQuery) = 0 := by
    intro pi
    rw [List.countP_eq_zero]
    intro c hc
    simp [(buildDevices_calls _ _ _ c hc).2]
  simp only [enumerate_displays]
  split
  · simp [List.countP_cons, OsCall.isQuery]
  · split
    · rw [List.countP_cons, List.countP_cons, hz]
      simp [OsCall.isQuery]
    · simp [List.countP_cons, OsCall.isQuery]

/-- The primary-display resolver issues no mutating call. -/
theorem get_primary_display_info_no_mutation (os : OsState) :
    ∀ c ∈ (get_primary_display_info os).2, c.isMutation = false := by
  intro c hc
  simp only [get_primary_display_info] at hc
  split at hc
  · rcases List.mem_append.mp hc with hc | hc
    · exact enumerate_displays_no_mutation os c hc
    · exact (enumModesCalls_calls _ _ _ c hc).1
  · exact enumerate_displays_no_mutation os c hc

end DisplaysInfo

namespace SetSdrLevel

/-- Whether some legacy device carries the primary state flag. -/
def anyLegacyPrimary (os : OsState) : Bool :=
  os.legacy.any fun d => d.stateFlags &&& DISPLAY_DEVICE_PRIMARY_DEVICE != 0

/-- The legacy scan returns exactly "some device carries the primary flag",
independent of the starting ordinal. -/
theorem primaryScan_fst (l : List LegacyDevice) (idx : Nat) :
    (primaryScan idx l).1 = l.any fun d => d.stateFlags &&& DISPLAY_DEVICE_PRIMARY_DEVICE != 0 := by
  induction l generalizing idx with
  | nil => rfl
  | cons dev rest ih =>
    simp only [primaryScan, List.any_cons]
    split
    · next h => simp [h]
    · next h =>
      have hf : (dev.stateFlags &&& DISPLAY_DEVICE_PRIMARY_DEVICE != 0) = false := by
        revert h
        cases dev.stateFlags &&& DISPLAY_DEVICE_PRIMARY_DEVICE != 0 <;> simp
      simp [hf, ih]

/-- The legacy scan issues only `EnumDisplayDevicesW` calls. -/
theorem primaryScan_calls (l : List LegacyDevice) (idx : Nat) :
    ∀ c ∈ (primaryScan idx l).2, c.isMutation = false ∧ c.isQuery = false := by
  induction l generalizing idx with
  | nil =>
    intro c hc
    simp only [primaryScan, List.mem_singleton] at hc
    subst hc
    exact ⟨rfl, rfl⟩
  | cons dev rest ih =>
    intro c hc
    simp only [primaryScan] at hc
    split at hc
    · simp only [List.mem_singleton] at hc
      subst hc
      exact ⟨rfl, rfl⟩
    · rcases List.mem_cons.mp hc with rfl | hc
      · exact ⟨rfl, rfl⟩
      · exact ih (idx + 1) c hc

/-- Each path record of the SDR enumerator gets the same, path-independent
primary bit: the result of the global legacy scan. -/
theorem buildInfos_fst (os : OsState) (paths : List PathInfo) :
    (buildInfos os paths).1 = paths.map fun p => { path_info := p, is_primary := anyLegacyPrimary os } := by
  induction paths with
  | nil => rfl
  | cons p rest ih =>
    simp only [buildInfos, List.map_cons, ih]
    have : (primaryScan 0 os.legacy).1 = anyLegacyPrimary os := primaryScan_fst os.legacy 0
    simp [DisplayInfo.is_primary_display, this]

/-- The SDR enumerator's per-path loop issues only legacy-scan calls. -/
theorem buildInfos_calls (os : OsState) (paths : List PathInfo) :
    ∀ c ∈ (buildInfos os paths).2, c.isMutation = false ∧ c.isQuery = false := by
  induction paths with
  | nil => intro c hc; simp [buildInfos] at hc
  | cons p rest ih =>
    intro c hc
    simp only [buildInfos] at hc
    rcases List.mem_append.mp hc with hc | hc
    · exact primaryScan_calls os.legacy 0 c hc
    · exact ih c hc

/-- The SDR enumerator issues no mutating call. -/
theorem sdr_enumerate_no_mutation (os : OsState) :
    ∀ c ∈ (enumerate_displays os).2, c.isMutation = false := by
  intro c hc
  simp only [enumerate_displays] at hc
  split at hc
  · simp only [List.mem_singleton] at hc
    subst hc
    rfl
  · have hq : ∀ c ∈ sdrQueryCalls os, c.isMutation = false := by
      intro c hc
      simp only [sdrQueryCalls] at hc
      split at hc <;> simp only [List.mem_cons, List.mem_singleton, List.not_mem_nil, or_false] at hc
      · rcases hc with rfl | rfl <;> rfl
      · subst hc; rfl
    split at hc
    · rcases List.mem_cons.mp hc with rfl | hc
      · rfl
      · rcases List.mem_append.mp hc with hc | hc
        · exact hq c hc
        · exact (buildInfos_calls os _ c hc).1
    · rcases List.mem_cons.mp hc with rfl | hc
      · rfl
      · exact hq c hc

/-- Fetch-call count of the SDR enumerator: two when the first fetch reported
insufficient buffer (one resize, one retry), otherwise one; none when the
buffer-size query already failed. -/
theorem sdr_enumerate_queryCount (os : OsState) :
    ((enumerate_displays os).2.countP fun c => c.isQuery)
      = match os.bufferSizes with
        | none => 0
        | some _ => match os.query1 with
          | QueryOutcome.insufficientBuffer => 2
          | _ => 1 := by
  have hz : ∀ paths, ((buildInfos os paths).2.countP fun c => c.isQuery) = 0 := by
    intro paths
    rw [List.countP_eq_zero]
    intro c hc
    simp [(buildInfos_calls os _ c hc).2]
  rcases hb : os.bufferSizes with _ | val
  · simp [enumerate_displays, hb, List.countP_cons, OsCall.isQuery]
  · rcases hq : os.query1 with paths | _ | _
    · rw [show (enumerate_displays os).2
          = OsCall.getDisplayConfigBufferSizes :: (sdrQueryCalls os ++ (buildInfos os paths).2) from by
        simp [enumerate_displays, effectiveQuery, hb, hq]]
      rw [List.countP_cons, List.countP_append, hz]
      simp [sdrQueryCalls, hq, List.countP_cons, OsCall.isQuery]
    · rcases hq2 : os.query2 with paths2 | _ | _
      · rw [show (enumerate_displays os).2
            = OsCall.getDisplayConfigBufferSizes :: (sdrQueryCalls os ++ (buildInfos os paths2).2) from by
          simp [enumerate_displays, effectiveQuery, hb, hq, hq2]]
        rw [List.countP_cons, List.countP_append, hz]
        simp [sdrQueryCalls, hq, List.countP_cons, OsCall.isQuery]
      · simp [enumerate_displays, effectiveQuery, sdrQueryCalls, hb, hq, hq2,
          List.countP_cons, OsCall.isQuery]
      · simp [enumerate_displays, effectiveQuery, sdrQueryCalls, hb, hq, hq2,
          List.countP_cons, OsCall.isQuery]
    · simp [enumerate_displays, effectiveQuery, sdrQueryCalls, hb, hq,
        List.countP_cons, OsCall.isQuery]

end SetSdrLevel

/-- Sample adapter identity. -/
def luidA : LUID := { LowPart := 10, HighPart := 0 }

/-- Second sample adapter identity. -/
def luidB : LUID := { LowPart := 20, HighPart := 0 }

/-- Sample modern path with source id 0. -/
def pathA : PathInfo :=
  { sourceAdapterId := luidA, sourceId := 0, targetAdapterId := luidA, targetId := 100 }

/-- Sample modern path with source id 1. -/
def pathB : PathInfo :=
  { sourceAdapterId := luidB, sourceId := 1, targetAdapterId := luidB, targetId := 200 }

/-- Sample mode 1920x1080@60. -/
def modeHD : DisplayMode := { width := 1920, height := 1080, refresh_rate := 60 }

/-- Sample mode 1280x720@60. -/
def modeSD : DisplayMode := { width := 1280, height := 720, refresh_rate := 60 }

/-- A legacy device carrying the primary flag (state flags 5 = attached plus
primary bit). -/
def devPrimary : LegacyDevice :=
  { deviceName := "DISPLAY1", deviceString := "Main panel", stateFlags := 5,
    currentSettings := some { dmPelsWidth := 1920, dmPelsHeight := 1080, dmDisplayFrequency := 60 } }

/-- A legacy device without the primary flag. -/
def devSecondary : LegacyDevice :=
  { deviceName := "DISPLAY2", deviceString := "Side panel", stateFlags := 1,
    currentSettings := some { dmPelsWidth := 1280, dmPelsHeight := 720, dmDisplayFrequency := 60 } }

/-- A well-behaved sample OS state: two active paths, the first legacy device
primary, every OS call succeeding. -/
def osBase : OsState :=
  { bufferSizes := some (2, 2),
    query1 := QueryOutcome.success [pathA, pathB],
    query2 := QueryOutcome.otherError,
    legacy := [devPrimary, devSecondary],
    reportedModes := fun _ => [modeHD, modeSD],
    changeResult := DispChange.successful,
    dcSucceeds := fun _ => true,
    iccEnum := fun _ => [{ name := "sRGB.icc", path := "C:/icc/sRGB.icc" }],
    sdrSetSucceeds := true,
    assocSucceeds := true }

/-- C1: for every level in 0..=100 `set_primary_display_sdr_white` computes the
OS api value as exactly `1000 + level * 50` and places it in the configuration
record it issues; for every level > 100 it returns failure immediately without
issuing any OS call. -/
theorem sdr_white_level_contract (os : OsState) (level : Nat) :
    (100 < level →
      SetSdrLevel.set_primary_display_sdr_white os level = (Except.error (), [])) ∧
    (∀ req, OsCall.displayConfigSetDeviceInfo req
        ∈ (SetSdrLevel.set_primary_display_sdr_white os level).2 →
      req.sdr_white_level = 1000 + level * 50) := by
  constructor
  · intro h
    simp [SetSdrLevel.set_primary_display_sdr_white, h]
  · intro req hreq
    by_cases hl : level > 100
    · simp only [SetSdrLevel.set_primary_display_sdr_white, if_pos hl] at hreq
      simp at hreq
    · simp only [SetSdrLevel.set_primary_display_sdr_white, if_neg hl] at hreq
      have hmut : (OsCall.displayConfigSetDeviceInfo req).isMutation = true := rfl
      split at hreq
      · exact absurd (SetSdrLevel.sdr_enumerate_no_mutation os _ hreq) (by simp [hmut])
      · split at hreq
        · simp only [SetSdrLevel.set_sdr_white_level] at hreq
          rcases List.mem_append.mp hreq with hc | hc
          · exact absurd (SetSdrLevel.sdr_enumerate_no_mutation os _ hc) (by simp [hmut])
          · simp only [List.mem_singleton, OsCall.displayConfigSetDeviceInfo.injEq] at hc
            subst hc
            have hpow : (2 : Nat) ^ 32 = 4294967296 := by norm_num
            simp only [SetSdrLevel.mkSdrRequest]
            rw [Nat.mod_eq_of_lt (by omega)]
        · exact absurd (SetSdrLevel.sdr_enumerate_no_mutation os _ hreq) (by simp [hmut])

/-- C1 witness: level 101 is rejected with an empty trace on the sample state,
and the record issued for level 7 carries 1350 = 1000 + 7 * 50. -/
theorem sdr_white_level_contract_witness :
    SetSdrLevel.set_primary_display_sdr_white osBase 101 = (Except.error (), []) ∧
    (SetSdrLevel.mkSdrRequest pathA 7).sdr_white_level = 1000 + 7 * 50 := by
  constructor
  · exact (sdr_white_level_contract osBase 101).1 (by decide)
  · exact (sdr_white_level_contract osBase 7).2 (SetSdrLevel.mkSdrRequest pathA 7) (by decide)

/-- C9: the `is_primary` value the SDR enumerator computes for a path record
does not depend on the path — every record of one enumeration carries the
global legacy-scan bit — and consequently, whenever any primary display
exists, `set_primary_display_sdr_white` targets the first path of the modern
path list. -/
theorem sdr_is_primary_path_independent (os : OsState) :
    (∀ displays, (SetSdrLevel.enumerate_displays os).1 = Except.ok displays →
      ∀ d ∈ displays, d.is_primary = SetSdrLevel.anyLegacyPrimary os) ∧
    (∀ level sz p rest, level ≤ 100 → os.bufferSizes = some sz →
      SetSdrLevel.effectiveQuery os = QueryOutcome.success (p :: rest) →
      SetSdrLevel.anyLegacyPrimary os = true →
      ((SetSdrLevel.set_primary_display_sdr_white os level).2.filter fun c => c.isMutation)
        = [OsCall.displayConfigSetDeviceInfo (SetSdrLevel.mkSdrRequest p level)]) := by
  constructor
  · intro displays h d hd
    simp only [SetSdrLevel.enumerate_displays] at h
    split at h
    · simp at h
    · split at h
      · simp only [Except.ok.injEq] at h
        subst h
        rw [SetSdrLevel.buildInfos_fst] at hd
        rcases List.mem_map.mp hd with ⟨p, _, rfl⟩
        rfl
      · simp at h
  · intro level sz p rest hle hb he hany
    have hlv : ¬ level > 100 := by omega
    have he1 : (SetSdrLevel.enumerate_displays os).1
        = Except.ok (({ path_info := p, is_primary := true } : SetSdrLevel.DisplayInfo)
            :: rest.map fun q => { path_info := q, is_primary := true }) := by
      simp [SetSdrLevel.enumerate_displays, hb, he, SetSdrLevel.buildInfos_fst, hany]
    have hset : SetSdrLevel.set_primary_display_sdr_white os level
        = ((if os.sdrSetSucceeds then Except.ok () else Except.error ()),
           (SetSdrLevel.enumerate_displays os).2
             ++ [OsCall.displayConfigSetDeviceInfo (SetSdrLevel.mkSdrRequest p level)]) := by
      simp only [SetSdrLevel.set_primary_display_sdr_white, if_neg hlv]
      rw [he1]
      simp [List.find?, SetSdrLevel.set_sdr_white_level]
    rw [hset]
    simp only [List.filter_append]
    have hnil : ((SetSdrLevel.enumerate_displays os).2.filter fun c => c.isMutation) = [] := by
      rw [List.filter_eq_nil_iff]
      intro c hc
      simp [SetSdrLevel.sdr_enumerate_no_mutation os c hc]
    rw [hnil]
    simp [OsCall.isMutation]

/-- C9 witness: on the sample state every path record (here the second one)
carries the global primary bit, and the level-50 mutation targets the first
path `pathA`. -/
theorem sdr_is_primary_path_independent_witness :
    ({ path_info := pathB, is_primary := true } : SetSdrLevel.DisplayInfo).is_primary
        = SetSdrLevel.anyLegacyPrimary osBase ∧
    ((SetSdrLevel.set_primary_display_sdr_white osBase 50).2.filter fun c => c.isMutation)
      = [OsCall.displayConfigSetDeviceInfo (SetSdrLevel.mkSdrRequest pathA 50)] := by
  constructor
  · exact (sdr_is_primary_path_independent osBase).1
      [{ path_info := pathA, is_primary := true }, { path_info := pathB, is_primary := true }]
      rfl { path_info := pathB, is_primary := true } (by decide)
  · exact (sdr_is_primary_path_independent osBase).2 50 (2, 2) pathA [pathB]
      (by decide) (by decide) (by decide) (by decide)

/-- OS state for the C2 code-bug evidence: the legacy device marked primary is
the SECOND one (ordinal 1), whose modern identity is the second path `pathB`;
the first path `pathA` belongs to the non-primary device at ordinal 0. -/
def osC2 : OsState := { osBase with legacy := [devSecondary, devPrimary] }

/-- C2 (code-bug evidence): with the primary display on the second path, the
Device Enumerator's own reconciliation marks the ordinal-1 device primary and
gives it `pathB`'s modern identity `(luidB, 1)`, yet the SDR mutator's
path-independent scan makes it issue the white-level request for the FIRST
path's target (`pathA`, adapter `luidA`) — not the primary display's path. -/
theorem sdr_targets_first_path_not_primary :
    ((DisplaysInfo.enumerate_displays osC2).1.map fun d => (d.is_primary, d.adapter_id, d.source_id))
      = [(false, luidA, 0), (true, luidB, 1)] ∧
    ((SetSdrLevel.set_primary_display_sdr_white osC2 50).2.filter fun c => c.isMutation)
      = [OsCall.displayConfigSetDeviceInfo (SetSdrLevel.mkSdrRequest pathA 50)] ∧
    (SetSdrLevel.mkSdrRequest pathA 50).adapterId ≠ luidB := by
  refine ⟨by decide, by decide, by decide⟩

/-- OS state in which the first configuration fetch reports insufficient
buffer and a retried fetch would succeed with one path. -/
def osC3 : OsState :=
  { osBase with query1 := QueryOutcome.insufficientBuffer,
                query2 := QueryOutcome.success [pathA] }

/-- C3 counterexample: at `osC3` the Device Enumerator's fetch reports
insufficient buffer, yet `enumerate_displays` (src/displays_info.rs) issues
exactly ONE fetch — no resize-and-retry — and fails to the empty list, even
though a single retry would have succeeded (as the SDR-side enumerator on the
same state shows). -/
theorem device_enumerator_no_retry_counterexample :
    osC3.query1 = QueryOutcome.insufficientBuffer ∧
    ((DisplaysInfo.enumerate_displays osC3).2.countP fun c => c.isQuery) = 1 ∧
    DisplaysInfo.enumerate_displays osC3
      = ([], [OsCall.getDisplayConfigBufferSizes, OsCall.queryDisplayConfig]) ∧
    (SetSdrLevel.enumerate_displays osC3).1
      = Except.ok [{ path_info := pathA, is_primary := true }] := by
  refine ⟨by decide, by decide, by decide, rfl⟩

/-- C3 amended: the resize-and-retry-exactly-once on insufficient buffer is
implemented in the SDR mutator's internal enumerator (src/set_sdr_level.rs),
where the second fetch's outcome governs and a second failure fails the
operation; the Device Enumerator's `enumerate_displays`
(src/displays_info.rs) never retries — any non-success fetch, insufficient
buffer included, makes it return the empty list after a single fetch — and no
enumerator ever issues more than two fetches. -/
theorem insufficient_buffer_retry_behaviour (os : OsState) (sz : Nat × Nat)
    (h1 : os.bufferSizes = some sz)
    (h2 : os.query1 = QueryOutcome.insufficientBuffer) :
    ((SetSdrLevel.enumerate_displays os).2.countP fun c => c.isQuery) = 2 ∧
    (∀ ps, os.query2 = QueryOutcome.success ps →
      (SetSdrLevel.enumerate_displays os).1 = Except.ok (SetSdrLevel.buildInfos os ps).1) ∧
    (os.query2 = QueryOutcome.insufficientBuffer →
      (SetSdrLevel.enumerate_displays os).1 = Except.error ()) ∧
    (os.query2 = QueryOutcome.otherError →
      (SetSdrLevel.enumerate_displays os).1 = Except.error ()) ∧
    DisplaysInfo.enumerate_displays os
      = ([], [OsCall.getDisplayConfigBufferSizes, OsCall.queryDisplayConfig]) ∧
    (∀ os' : OsState, ((SetSdrLevel.enumerate_displays os').2.countP fun c => c.isQuery) ≤ 2) := by
  refine ⟨?_, ?_, ?_, ?_, ?_, ?_⟩
  · rw [SetSdrLevel.sdr_enumerate_queryCount os, h1, h2]
  · intro ps hq2
    simp [SetSdrLevel.enumerate_displays, SetSdrLevel.effectiveQuery, h1, h2, hq2]
  · intro hq2
    simp [SetSdrLevel.enumerate_displays, SetSdrLevel.effectiveQuery, h1, h2, hq2]
  · intro hq2
    simp [SetSdrLevel.enumerate_displays, SetSdrLevel.effectiveQuery, h1, h2, hq2]
  · simp [DisplaysInfo.enumerate_displays, h1, h2]
  · intro os'
    rw [SetSdrLevel.sdr_enumerate_queryCount os']
    rcases os'.bufferSizes with _ | v
    · simp
    · rcases os'.query1 with ps | _ | _ <;> simp

/-- C3 witness: on `osC3` (first fetch insufficient, second succeeding) the
SDR enumerator issues exactly two fetches and succeeds. -/
theorem insufficient_buffer_retry_behaviour_witness :
    ((SetSdrLevel.enumerate_displays osC3).2.countP fun c => c.isQuery) = 2 ∧
    (SetSdrLevel.enumerate_displays osC3).1 = Except.ok (SetSdrLevel.buildInfos osC3 [pathA]).1 ∧
    DisplaysInfo.enumerate_displays osC3
      = ([], [OsCall.getDisplayConfigBufferSizes, OsCall.queryDisplayConfig]) := by
  obtain ⟨hcount, hok, _, _, hdev, _⟩ :=
    insufficient_buffer_retry_behaviour osC3 (2, 2) rfl rfl
  exact ⟨hcount, hok [pathA] rfl, hdev⟩

/-- What C4 claims the reconciliation does: key the table by POSITION in the
modern path list, so the device at ordinal i receives the i-th path's
`(adapter_id, source_id)`, with the zero sentinel when the position is out of
range.  (Modelled from the claim's words, for comparison with the code.) -/
def positional_reconcile (paths : List PathInfo) (device_index : Nat) : LUID × Nat :=
  match paths.get? device_index with
  | some p => (p.sourceAdapterId, p.sourceId)
  | none => ({ LowPart := 0, HighPart := 0 }, 0)

/-- What the code actually does (the inline lookup of
src/displays_info.rs lines 213-216, isolated): search the
`(source_id, adapter_id)` pairs for one whose SOURCE ID equals the device's
ordinal index; the zero sentinel when none matches. -/
def source_id_reconcile (path_info : List (Nat × LUID)) (device_index : Nat) : LUID × Nat :=
  match path_info.find? fun pr => pr.1 == device_index with
  | some pr => (pr.2, pr.1)
  | none => ({ LowPart := 0, HighPart := 0 }, 0)

/-- A path whose source id (7) differs from its position (0). -/
def path7 : PathInfo :=
  { sourceAdapterId := luidB, sourceId := 7, targetAdapterId := luidB, targetId := 700 }

/-- OS state for the C4 counterexample: one path whose source id is 7, one
attached legacy device at ordinal 0. -/
def osC4 : OsState :=
  { osBase with query1 := QueryOutcome.success [path7], legacy := [devPrimary] }

/-- C4 counterexample: position-keyed reconciliation would give the ordinal-0
device the position-0 path's identity `(luidB, 7)`, but the code gives it the
zero sentinel because no path's SOURCE ID equals 0. -/
theorem positional_reconciliation_counterexample :
    ((DisplaysInfo.enumerate_displays osC4).1.map fun d => (d.device_index, d.adapter_id, d.source_id))
      = [(0, { LowPart := 0, HighPart := 0 }, 0)] ∧
    positional_reconcile [path7] 0 = (luidB, 7) ∧
    ((({ LowPart := 0, HighPart := 0 } : LUID), (0 : Nat)) ≠ ((luidB : LUID), (7 : Nat))) := by
  refine ⟨by decide, by decide, by decide⟩

namespace DisplaysInfo

/-- Every device retained by the legacy loop carries the identity obtained by
matching its ordinal against the path source ids. -/
theorem buildDevices_ids (pi : List (Nat × LUID)) (l : List LegacyDevice) (idx : Nat) :
    ∀ d ∈ (buildDevices pi idx l).1,
      (d.adapter_id, d.source_id) = source_id_reconcile pi d.device_index := by
  induction l generalizing idx with
  | nil => intro d hd; simp [buildDevices] at hd
  | cons dev rest ih =>
    intro d hd
    simp only [buildDevices] at hd
    split at hd
    · exact ih (idx + 1) d hd
    · split at hd
      · rcases List.mem_cons.mp hd with rfl | hd
        · simp only [source_id_reconcile]
          cases hf : pi.find? fun pr => pr.1 == idx <;> simp [hf]
        · exact ih (idx + 1) d hd
      · exact ih (idx + 1) d hd

end DisplaysInfo

/-- C4 amended: the reconciliation table is the list of `(source_id,
adapter_id)` pairs of the modern path list, and each retained legacy device's
`(adapter_id, source_id)` is obtained by searching that table for a pair whose
SOURCE ID equals the device's ordinal index (the source's positional-
correspondence assumption "source ID matches the device index"); a device
whose ordinal matches no path's source id receives the zero/sentinel adapter
identity and source id 0. -/
theorem reconcile_by_source_id (os : OsState) (paths : List PathInfo)
    (hq : os.query1 = QueryOutcome.success paths) :
    ∀ d ∈ (DisplaysInfo.enumerate_displays os).1,
      (d.adapter_id, d.source_id)
        = source_id_reconcile (paths.map fun p => (p.sourceId, p.sourceAdapterId))
            d.device_index := by
  intro d hd
  rcases hb : os.bufferSizes with _ | v
  · simp [DisplaysInfo.enumerate_displays, hb] at hd
  · simp only [DisplaysInfo.enumerate_displays, hb, hq] at hd
    exact DisplaysInfo.buildDevices_ids _ _ 0 d hd

/-- C4 amended witness: on `osC4` (path source id 7, device ordinal 0) the
retained device gets the sentinel identity, exactly `source_id_reconcile`'s
answer. -/
theorem reconcile_by_source_id_witness :
    ((DisplaysInfo.enumerate_displays osC4).1.map fun d => (d.adapter_id, d.source_id))
      = [source_id_reconcile [(7, luidB)] 0] := by
  have h := reconcile_by_source_id osC4 [path7] rfl
  rcases hl : (DisplaysInfo.enumerate_displays osC4).1 with _ | ⟨d, rest⟩
  · exact absurd hl (by decide)
  · have hrest : rest = [] := by
      have : (DisplaysInfo.enumerate_displays osC4).1.length = 1 := by decide
      rw [hl] at this
      simpa using this
    subst hrest
    have hidx : d.device_index = 0 := by
      have : (DisplaysInfo.enumerate_displays osC4).1.map (fun d => d.device_index) = [0] := by decide
      rw [hl] at this
      simpa using this
    have hd := h d (by rw [hl]; exact List.mem_singleton.mpr rfl)
    simp only [List.map_cons, List.map_nil]
    rw [hd, hidx]
    rfl

/-- C5: with a resolved primary display whose supported-mode catalog does not
contain the requested `(w, h, r)`, `change_primary_display_mode` with
validation on returns failure without issuing any OS mutation call. -/
theorem change_mode_validate_rejects_unsupported (os : OsState)
    (width height refresh_rate : Nat)
    (primary : DisplaysInfo.DisplayDevice) (supported : List DisplayMode)
    (hp : (DisplaysInfo.get_primary_display_info os).1 = some (primary, supported))
    (habs : ({ width := width, height := height, refresh_rate := refresh_rate } : DisplayMode)
      ∉ supported) :
    ChangeDisplayMode.change_primary_display_mode os width height refresh_rate false
      = (false, (DisplaysInfo.get_primary_display_info os).2) ∧
    ((ChangeDisplayMode.change_primary_display_mode os width height refresh_rate false).2.countP
        fun c => c.isMutation) = 0 := by
  have hany : (supported.any fun mode =>
      mode.width == width && mode.height == height
        && mode.refresh_rate == refresh_rate) = false := by
    rw [List.any_eq_false]
    intro m hm
    rcases m with ⟨mw, mh, mr⟩
    simp only [Bool.and_eq_true, beq_iff_eq]
    intro hcon
    obtain ⟨⟨h1, h2⟩, h3⟩ := hcon
    subst h1
    subst h2
    subst h3
    exact habs hm
  have heq : ChangeDisplayMode.change_primary_display_mode os width height refresh_rate false
      = (false, (DisplaysInfo.get_primary_display_info os).2) := by
    simp only [ChangeDisplayMode.change_primary_display_mode]
    rw [hp]
    simp [hany]
  refine ⟨heq, ?_⟩
  rw [heq, List.countP_eq_zero]
  intro c hc
  simp [DisplaysInfo.get_primary_display_info_no_mutation os c hc]

/-- The `DisplayDevice` record the Device Enumerator builds for `devPrimary`
on the sample state. -/
def primaryRecord : DisplaysInfo.DisplayDevice :=
  { device_index := 0, device_name := "DISPLAY1", device_string := "Main panel",
    state_flags := 5, is_primary := true, current_resolution := (1920, 1080),
    current_refresh_rate := 60, adapter_id := luidA, source_id := 0 }

/-- C5 witness: on the sample state the catalog is exactly the two sample
modes and the unsupported request 1234x567@89 is rejected with zero mutation
calls. -/
theorem change_mode_validate_rejects_unsupported_witness :
    ChangeDisplayMode.change_primary_display_mode osBase 1234 567 89 false
      = (false, (DisplaysInfo.get_primary_display_info osBase).2) ∧
    ((ChangeDisplayMode.change_primary_display_mode osBase 1234 567 89 false).2.countP
        fun c => c.isMutation) = 0 :=
  change_mode_validate_rejects_unsupported osBase 1234 567 89 primaryRecord
    [modeHD, modeSD] (by decide) (by decide)

namespace ChangeIccProfile

/-- The profile-listing path issues no mutating call. -/
theorem get_display_icc_profiles_no_mutation (os : OsState)
    (display : DisplaysInfo.DisplayDevice) :
    ∀ c ∈ (get_display_icc_profiles os display).2, c.isMutation = false := by
  intro c hc
  simp only [get_display_icc_profiles] at hc
  split at hc
  · simp only [List.mem_cons, List.mem_singleton, List.not_mem_nil, or_false] at hc
    rcases hc with rfl | rfl | rfl <;> rfl
  · simp only [List.mem_singleton] at hc
    subst hc
    rfl

end ChangeIccProfile

/-- C7: whenever the requested profile name is not an exact match of any name
returned by listing the display's ICC profiles, `set_display_icc_profile`
fails without issuing the OS default-association call (zero mutation
calls in its trace). -/
theorem icc_set_profile_not_found (os : OsState) (display : DisplaysInfo.DisplayDevice)
    (profile_name : String)
    (h : ∀ p ∈ (ChangeIccProfile.get_display_icc_profiles os display).1,
      p.name ≠ profile_name) :
    (ChangeIccProfile.set_display_icc_profile os display profile_name).1 = Except.error () ∧
    ((ChangeIccProfile.set_display_icc_profile os display profile_name).2.countP
        fun c => c.isMutation) = 0 := by
  have hfind : ((ChangeIccProfile.get_display_icc_profiles os display).1.find?
      fun p => p.name == profile_name) = none := by
    rw [List.find?_eq_none]
    intro p hp
    simp [h p hp]
  have heq : ChangeIccProfile.set_display_icc_profile os display profile_name
      = (Except.error (), (ChangeIccProfile.get_display_icc_profiles os display).2) := by
    simp only [ChangeIccProfile.set_display_icc_profile]
    rw [hfind]
  refine ⟨by rw [heq], ?_⟩
  rw [heq, List.countP_eq_zero]
  intro c hc
  simp [ChangeIccProfile.get_display_icc_profiles_no_mutation os display c hc]

/-- C7 witness: requesting the absent profile "missing.icc" on the sample
state fails with zero mutation calls. -/
theorem icc_set_profile_not_found_witness :
    (ChangeIccProfile.set_display_icc_profile osBase primaryRecord "missing.icc").1
        = Except.error () ∧
    ((ChangeIccProfile.set_display_icc_profile osBase primaryRecord "missing.icc").2.countP
        fun c => c.isMutation) = 0 :=
  icc_set_profile_not_found osBase primaryRecord "missing.icc" (by decide)

/-- A second legacy device also carrying the primary flag. -/
def devPrimaryB : LegacyDevice :=
  { deviceName := "DISPLAY2", deviceString := "Second panel", stateFlags := 5,
    currentSettings := some { dmPelsWidth := 1280, dmPelsHeight := 720, dmDisplayFrequency := 60 } }

/-- OS state reporting TWO legacy devices with the primary flag set. -/
def osC8 : OsState := { osBase with legacy := [devPrimary, devPrimaryB] }

/-- C8 counterexample: the enumerator derives `is_primary` per device from its
own state flags and enforces no uniqueness, so an OS state with two
primary-flagged devices yields two records with `is_primary = true`. -/
theorem two_primary_devices_counterexample :
    ((DisplaysInfo.enumerate_displays osC8).1.countP fun d => d.is_primary) = 2 := by
  decide

namespace DisplaysInfo

/-- The legacy loop carries at most as many primary records as the OS reports
primary-flagged devices. -/
theorem buildDevices_primary_count (pi : List (Nat × LUID)) (l : List LegacyDevice) (idx : Nat) :
    ((buildDevices pi idx l).1.countP fun d => d.is_primary)
      ≤ l.countP fun dev => dev.stateFlags &&& DISPLAY_DEVICE_PRIMARY_DEVICE != 0 := by
  induction l generalizing idx with
  | nil => simp [buildDevices]
  | cons dev rest ih =>
    simp only [buildDevices, List.countP_cons]
    split
    · exact le_trans (ih (idx + 1)) (Nat.le_add_right _ _)
    · split
      · simp only [List.countP_cons]
        exact Nat.add_le_add (ih (idx + 1)) (le_refl _)
      · exact le_trans (ih (idx + 1)) (Nat.le_add_right _ _)

end DisplaysInfo

/-- C8 amended: `enumerate_displays` derives `is_primary` independently per
device from the primary bit of its state flags and does not itself enforce
uniqueness; whenever the OS reports at most one legacy device with the
primary bit (the Windows guarantee), at most one enumerated record has
`is_primary = true`. -/
theorem at_most_one_primary_from_flags (os : OsState)
    (h : (os.legacy.countP fun dev =>
      dev.stateFlags &&& DISPLAY_DEVICE_PRIMARY_DEVICE != 0) ≤ 1) :
    ((DisplaysInfo.enumerate_displays os).1.countP fun d => d.is_primary) ≤ 1 := by
  rcases hb : os.bufferSizes with _ | v
  · simp [DisplaysInfo.enumerate_displays, hb]
  · rcases hq : os.query1 with paths | _ | _
    · simp only [DisplaysInfo.enumerate_displays, hb, hq]
      exact le_trans (DisplaysInfo.buildDevices_primary_count _ _ 0) h
    · simp [DisplaysInfo.enumerate_displays, hb, hq]
    · simp [DisplaysInfo.enumerate_displays, hb, hq]

/-- C8 amended witness: the sample state has one primary-flagged legacy
device, so at most one enumerated record is primary. -/
theorem at_most_one_primary_from_flags_witness :
    ((DisplaysInfo.enumerate_displays osBase).1.countP fun d => d.is_primary) ≤ 1 :=
  at_most_one_primary_from_flags osBase (by decide)

/-- OS state with no legacy device flagged primary. -/
def osNoPrimary : OsState := { osBase with legacy := [devSecondary] }

/-- C10: `list_icc_profiles` returns the empty list (its return type carries
no error channel) whenever no enumerated device is marked primary. -/
theorem list_icc_profiles_empty_no_primary (os : OsState)
    (h : ∀ d ∈ (DisplaysInfo.enumerate_displays os).1, d.is_primary = false) :
    (ChangeIccProfile.list_icc_profiles os).1 = [] := by
  have hfind : ((DisplaysInfo.enumerate_displays os).1.find? fun d => d.is_primary) = none := by
    rw [List.find?_eq_none]
    intro d hd
    simp [h d hd]
  have hg : (DisplaysInfo.get_primary_display_info os).1 = none := by
    simp only [DisplaysInfo.get_primary_display_info]
    rw [hfind]
  simp only [ChangeIccProfile.list_icc_profiles]
  rw [hg]

/-- C10 witness: with no primary-flagged device the profile listing is empty. -/
theorem list_icc_profiles_empty_no_primary_witness :
    (ChangeIccProfile.list_icc_profiles osNoPrimary).1 = [] :=
  list_icc_profiles_empty_no_primary osNoPrimary (by decide)
